import Mathlib

/-!
Shallow embedding of the query-routing and structured-analysis engine of the
data-analyst-ai repository (src/data_analyzer.py and src/llm_handler.py).

Tables are modelled in their post-load state: the column classifier has run,
so date-like columns (`Month`, `HireDate`) hold structured dates, numeric
columns hold rationals, and text columns hold strings.  Pandas behaviour that
the source relies on is embedded explicitly:
  * `x in s` on lower-cased strings is substring containment (`hasSub`);
  * comparing a datetime column with a string parses the string as a
    timestamp (so `== "2025-02"` compares against 2025-02-01);
  * `pd.merge(..., how="left")` is a left-outer join keeping every left row;
  * `groupby` sorts group keys ascending and `idxmax`/`idxmin` return the
    first extremal key; aggregation of a missing (null) value skips it;
  * unguarded lookups (`.values[0]`, `.iloc[0]`, missing sheet keys,
    `re.search(...).group(...)` on a failed search, `idxmax` of an empty
    series) are modelled as `Except.error` with the Python exception kind.
-/

namespace DataAnalyst

/-- Python exception kinds that the analyzer can raise at query time. -/
inductive PyError where
  | keyError : String → PyError
  | indexError : PyError
  | attributeError : PyError
  | valueError : PyError
deriving DecidableEq, Repr

/-- Calendar date, the embedding of a pandas Timestamp (time-of-day is always
midnight for the data this program handles). -/
structure Date where
  year : Nat
  month : Nat
  day : Nat
deriving DecidableEq, Repr

/-- Strict lexicographic order on dates, the order pandas uses to sort and
compare timestamps. -/
def Date.ltb (a b : Date) : Bool :=
  Nat.blt a.year b.year ||
    (a.year == b.year &&
      (Nat.blt a.month b.month || (a.month == b.month && Nat.blt a.day b.day)))

/-- Does the character list `p` occur at the start of `s`?  (Helper for
Python substring containment.) -/
def leadsWith : List Char → List Char → Bool
  | [], _ => true
  | _ :: _, [] => false
  | a :: as, b :: bs => a == b && leadsWith as bs

/-- Does the character list `needle` occur contiguously anywhere in `hay`?
Embeds Python `needle in hay`. -/
def hasSubList (needle : List Char) : List Char → Bool
  | [] => leadsWith needle []
  | c :: cs => leadsWith needle (c :: cs) || hasSubList needle cs

/-- Python `needle in hay` on strings. -/
def hasSub (needle hay : String) : Bool :=
  hasSubList needle.data hay.data

/-- Python `s.lower()`, character by character (the column names and
questions this program sees are ASCII). -/
def lowerStr (s : String) : String :=
  String.mk (s.data.map Char.toLower)

/-- Python `s.replace(" ", "")`: drop every space character. -/
def stripSpaces (s : String) : String :=
  String.mk (s.data.filter (fun c => c != '\x20'))

/-- Decimal digits to a natural number, embedding Python `int` on a digit
string. -/
def digitsToNat (cs : List Char) : Nat :=
  cs.foldl (fun n c => 10 * n + (c.toNat - '0'.toNat)) 0

/-- Python regex class `\s` (whitespace) on the ASCII range. -/
def isSpacePy (c : Char) : Bool :=
  c == '\x20' || c == '\t' || c == '\n' || c == '\r' || c == '\x0b' || c == '\x0c'

/-- Embedding of `re.search(kw + r"\s*(\d+)", s)` followed by `int(m.group(1))`:
scan left to right for the first position where the keyword occurs and, after
skipping whitespace, at least one digit follows; return the value of that
maximal digit run.  `none` embeds a failed search (whose `.group` call raises
`AttributeError` in Python). -/
def searchKeyNum (kw : List Char) : List Char → Option Nat
  | [] => none
  | c :: cs =>
    if leadsWith kw (c :: cs) then
      let rest := ((c :: cs).drop kw.length).dropWhile isSpacePy
      match rest.takeWhile Char.isDigit with
      | [] => searchKeyNum kw cs
      | ds => some (digitsToNat ds)
    else searchKeyNum kw cs

/-- Distinct elements of a list keeping first occurrences, the embedding of
`pandas.Series.unique()` (`seen` accumulates the values already emitted). -/
def uniqFirstGo (seen : List String) : List String → List String
  | [] => []
  | a :: l => if a ∈ seen then uniqFirstGo seen l else a :: uniqFirstGo (a :: seen) l

/-- `pandas.Series.unique()`: distinct values in first-occurrence order. -/
def uniqFirst (l : List String) : List String :=
  uniqFirstGo [] l

/-- Row of the Employees sheet (columns EmployeeID, Name, Department, Salary,
HireDate), in post-classification form. -/
structure EmployeeRow where
  employeeID : Int
  name : String
  department : String
  salary : Rat
  hireDate : Date
deriving DecidableEq, Repr

/-- Row of the Sales sheet (columns SaleID, EmployeeID, Month, SalesAmount),
in post-classification form: `Month` has been coerced to a date. -/
structure SalesRow where
  saleID : Int
  employeeID : Int
  month : Date
  salesAmount : Rat
deriving DecidableEq, Repr

/-- Row of the Feedback sheet (columns FeedbackID, EmployeeID, FeedbackScore,
Comments). -/
structure FeedbackRow where
  feedbackID : Int
  employeeID : Int
  feedbackScore : Int
  comments : String
deriving DecidableEq, Repr

/-- The loaded sheet set, restricted to the three sheet names the analyzer
ever accesses; `none` means the workbook has no sheet of that exact name. -/
structure Database where
  employees : Option (List EmployeeRow)
  sales : Option (List SalesRow)
  feedback : Option (List FeedbackRow)
deriving DecidableEq, Repr

/-- `pd.merge(ls, rs, on=key, how="left")`: every left row paired with each
matching right row, or with `none` (pandas null-filled fields) when no right
row shares its key. -/
def left_join {α β : Type} (ks : α → Int) (kt : β → Int)
    (ls : List α) (rs : List β) : List (α × Option β) :=
  ls.flatMap (fun a =>
    match rs.filter (fun b => kt b == ks a) with
    | [] => [(a, none)]
    | ms => ms.map (fun b => (a, some b)))

/-- `_create_relationships`: the employee_sales view exists exactly when both
the Employees and Sales sheets were loaded under those names. -/
def Database.employee_sales (db : Database) : Option (List (EmployeeRow × Option SalesRow)) :=
  match db.employees, db.sales with
  | some es, some ss => some (left_join EmployeeRow.employeeID SalesRow.employeeID es ss)
  | _, _ => none

/-- `_create_relationships`: the employee_feedback view exists exactly when
both the Employees and Feedback sheets were loaded under those names. -/
def Database.employee_feedback (db : Database) : Option (List (EmployeeRow × Option FeedbackRow)) :=
  match db.employees, db.feedback with
  | some es, some fs => some (left_join EmployeeRow.employeeID FeedbackRow.employeeID es fs)
  | _, _ => none

/-- `_extract_department`: first distinct Department value whose lower-cased
form occurs in the lower-cased question. -/
def extract_department (es : List EmployeeRow) (question : String) : Option String :=
  (uniqFirst (es.map (fun e => e.department))).find?
    (fun d => hasSub (lowerStr d) (lowerStr question))

/-- `_extract_name`: first distinct Name value whose lower-cased form occurs
in the lower-cased question. -/
def extract_name (es : List EmployeeRow) (question : String) : Option String :=
  (uniqFirst (es.map (fun e => e.name))).find?
    (fun n => hasSub (lowerStr n) (lowerStr question))

/-- Sum of a list of rationals (`pandas.Series.sum()`, which is 0 on an empty
series). -/
def sumRat (l : List Rat) : Rat :=
  l.foldl (· + ·) 0

/-- Mean of a list of rationals (`pandas.Series.mean()`).  Pandas yields NaN
on an empty series; here the rational division by zero yields 0 — no query
branch reached by a claim evaluates a mean over an empty selection. -/
def meanRat (l : List Rat) : Rat :=
  sumRat l / (l.length : Rat)

/-- Insert into a list sorted by the strict order `ltb`, before the first
strictly greater element. -/
def insertSorted {α : Type} (ltb : α → α → Bool) (a : α) : List α → List α
  | [] => [a]
  | b :: l => if ltb a b then a :: b :: l else b :: insertSorted ltb a l

/-- Insertion sort by the strict order `ltb` (ascending), the key order of
`pandas.groupby`. -/
def sortBy {α : Type} (ltb : α → α → Bool) : List α → List α
  | [] => []
  | a :: l => insertSorted ltb a (sortBy ltb l)

/-- First pair whose value beats every later value under `better`; embeds
`idxmax` / `idxmin` on a series (`none` on an empty series, where pandas
raises `ValueError`). -/
def bestBy {κ β : Type} (better : β → β → Bool) : List (κ × β) → Option (κ × β)
  | [] => none
  | p :: l => some (l.foldl (fun acc q => if better q.2 acc.2 then q else acc) p)

/-- Strict ascending comparison on strings, pandas' group-key order. -/
def strLtb (a b : String) : Bool :=
  decide (a < b)

/-- `employee_sales.groupby("Name")["SalesAmount"].sum()`: group keys sorted
ascending, each with the sum of its sales amounts; a null right side (an
employee with no sales) contributes 0, as pandas `sum` skips missing values. -/
def group_sum_sales (rows : List (EmployeeRow × Option SalesRow)) : List (String × Rat) :=
  (sortBy strLtb (uniqFirst (rows.map (fun r => r.1.name)))).map
    (fun k => (k, sumRat ((rows.filter (fun r => r.1.name == k)).map
      (fun r => match r.2 with
        | some s => s.salesAmount
        | none => 0))))

/-- `Sales.groupby("Month")["SalesAmount"].sum()`: month keys in ascending
date order, each with its total sales amount. -/
def group_sum_month (ss : List SalesRow) : List (Date × Rat) :=
  (sortBy Date.ltb ((ss.map (fun s => s.month)).foldl
      (fun acc m => if m ∈ acc then acc else acc ++ [m]) [])).map
    (fun k => (k, sumRat ((ss.filter (fun s => s.month == k)).map
      (fun s => s.salesAmount))))

/-- `Employees.groupby("Department")["Salary"].mean()`: department keys sorted
ascending, each with its mean salary. -/
def group_mean_salary (es : List EmployeeRow) : List (String × Rat) :=
  (sortBy strLtb (uniqFirst (es.map (fun e => e.department)))).map
    (fun k => (k, meanRat ((es.filter (fun e => e.department == k)).map
      (fun e => e.salary))))

/-- `Feedback.groupby("EmployeeID").size()`: employee-id keys sorted
ascending, each with the number of feedback rows. -/
def group_size_feedback (fs : List FeedbackRow) : List (Int × Nat) :=
  (sortBy (fun a b => decide (a < b)) ((fs.map (fun f => f.employeeID)).foldl
      (fun acc i => if i ∈ acc then acc else acc ++ [i]) [])).map
    (fun k => (k, (fs.filter (fun f => f.employeeID == k)).length))

/-- `Employees.sort_values("HireDate", ascending=False).iloc[0]`: the first
row (in sheet order) carrying the maximal hire date; `none` on an empty sheet
(where `.iloc[0]` raises `IndexError`). -/
def firstMaxHire : List EmployeeRow → Option EmployeeRow
  | [] => none
  | e :: l => some (l.foldl (fun acc f => if Date.ltb acc.hireDate f.hireDate then f else acc) e)

/-- Trigger of the department-count branch. -/
def cond_dept_count (q : String) : Bool :=
  hasSub "how many employees" (lowerStr q) && hasSub "department" (lowerStr q)

/-- Trigger of the individual-salary branch. -/
def cond_salary_of (q : String) : Bool :=
  hasSub "salary of" (lowerStr q)

/-- Trigger of the highest-salary branch. -/
def cond_highest_salary (q : String) : Bool :=
  hasSub "highest salary" (lowerStr q)

/-- Trigger of the February sales-count branch. -/
def cond_sales_feb (q : String) : Bool :=
  hasSub "how many sales" (lowerStr q) && hasSub "february" (lowerStr q)

/-- Trigger of the recent-hire branch. -/
def cond_recent_hire (q : String) : Bool :=
  hasSub "hired most recently" (lowerStr q)

/-- Trigger of the feedback-score branch (space-stripped containment). -/
def cond_feedbackscore (q : String) : Bool :=
  hasSub "feedbackscore" (stripSpaces (lowerStr q))

/-- Trigger of the department-lookup branch. -/
def cond_which_department (q : String) : Bool :=
  hasSub "which department" (lowerStr q)

/-- Trigger of the sale-amount branch (space-stripped containment). -/
def cond_salesamount (q : String) : Bool :=
  hasSub "salesamount" (stripSpaces (lowerStr q))

/-- Trigger of the needs-improvement branch. -/
def cond_needs_improvement (q : String) : Bool :=
  hasSub "needs improvement" (lowerStr q)

/-- Trigger of the January total-sales branch. -/
def cond_total_sales_jan (q : String) : Bool :=
  hasSub "total sales amount" (lowerStr q) && hasSub "january" (lowerStr q)

/-- Trigger of the top-sales-employee branch. -/
def cond_highest_total_sales (q : String) : Bool :=
  hasSub "highest total sales" (lowerStr q)

/-- Trigger of the average-salary-by-department branch. -/
def cond_avg_salary_dept (q : String) : Bool :=
  hasSub "average salary" (lowerStr q) && hasSub "department" (lowerStr q)

/-- Trigger of the feedback-score-count branch. -/
def cond_feedback_count (q : String) : Bool :=
  hasSub "how many employees" (lowerStr q) && hasSub "feedbackscore" (stripSpaces (lowerStr q))

/-- Trigger of the total-payroll branch. -/
def cond_total_payroll (q : String) : Bool :=
  hasSub "total payroll" (lowerStr q)

/-- Trigger of the top-sales-month branch, written exactly as in the source:
the plain top-sales trigger conjoined with the word "month". -/
def cond_top_sales_month (q : String) : Bool :=
  cond_highest_total_sales q && hasSub "month" (lowerStr q)

/-- Trigger of the average-feedback-score branch (space-stripped). -/
def cond_avg_feedbackscore (q : String) : Bool :=
  hasSub "average feedbackscore" (stripSpaces (lowerStr q))

/-- Trigger of the lowest-average-salary branch. -/
def cond_lowest_avg_salary (q : String) : Bool :=
  hasSub "lowest average salary" (lowerStr q)

/-- Trigger of the hired-before-year branch. -/
def cond_hired_before (q : String) : Bool :=
  hasSub "hired before" (lowerStr q)

/-- Trigger of the most-feedback-entries branch. -/
def cond_most_feedback (q : String) : Bool :=
  hasSub "most feedback entries" (lowerStr q)

/-- Disjunction of every trigger in source order; a question matches no
trigger exactly when this is `false`. -/
def matches_any (q : String) : Bool :=
  cond_dept_count q || cond_salary_of q || cond_highest_salary q || cond_sales_feb q ||
  cond_recent_hire q || cond_feedbackscore q || cond_which_department q ||
  cond_salesamount q || cond_needs_improvement q || cond_total_sales_jan q ||
  cond_highest_total_sales q || cond_avg_salary_dept q || cond_feedback_count q ||
  cond_total_payroll q || cond_top_sales_month q || cond_avg_feedbackscore q ||
  cond_lowest_avg_salary q || cond_hired_before q || cond_most_feedback q

/-- The tagged result record produced by `DataAnalyzer.query`, one constructor
per `type` discriminator of the source. -/
inductive QueryResult where
  | department_count : String → Nat → List String → QueryResult
  | employee_salary : String → Rat → QueryResult
  | highest_salary : String → Rat → String → QueryResult
  | sales_count : String → Nat → List Int → QueryResult
  | recent_hire : String → Date → String → QueryResult
  | feedback_score : String → Int → String → QueryResult
  | employee_department : String → String → QueryResult
  | sale_amount : Int → Rat → QueryResult
  | needs_improvement : String → Int → QueryResult
  | total_sales : String → Rat → QueryResult
  | top_sales_employee : String → Rat → QueryResult
  | avg_salary : String → Rat → QueryResult
  | feedback_count : Int → Nat → QueryResult
  | total_payroll : Rat → QueryResult
  | top_sales_month : Date → Rat → QueryResult
  | avg_feedback : Rat → QueryResult
  | lowest_avg_salary : String → Rat → QueryResult
  | employees_before_year : Nat → Nat → List String → QueryResult
  | most_feedback : String → Nat → QueryResult
  | unhandled : String → QueryResult
deriving DecidableEq, Repr
/-- Branch 1 of `query` (department count). -/
def run_dept_count (db : Database) (question : String) : Except PyError QueryResult :=
  match db.employees with
  | none => .error (.keyError "Employees")
  | some es =>
    match extract_department es question with
    | some dept =>
      .ok (.department_count dept
        ((es.filter (fun e => e.department == dept)).length)
        ((es.filter (fun e => e.department == dept)).map (fun e => e.name)))
    | none => .ok (.unhandled question)

/-- Branch 2 of `query` (individual salary). -/
def run_salary_of (db : Database) (question : String) : Except PyError QueryResult :=
  match db.employees with
  | none => .error (.keyError "Employees")
  | some es =>
    match extract_name es question with
    | some nm =>
      match (es.filter (fun e => e.name == nm)).map (fun e => e.salary) with
      | [] => .error .indexError
      | sal :: _ => .ok (.employee_salary nm sal)
    | none => .ok (.unhandled question)

/-- Branch 3 of `query` (highest salary): the salary maximum of an empty
sheet is NaN, whose equality filter selects nothing, so `.iloc[0]` raises. -/
def run_highest_salary (db : Database) (_question : String) : Except PyError QueryResult :=
  match db.employees with
  | none => .error (.keyError "Employees")
  | some es =>
    match es with
    | [] => .error .indexError
    | e0 :: rest =>
      match es.filter (fun e => e.salary == rest.foldl (fun m f => max m f.salary) e0.salary) with
      | [] => .error .indexError
      | e :: _ => .ok (.highest_salary e.name e.salary e.department)

/-- Branch 4 of `query` (February sales count): the filter compares the
date-coerced `Month` column with the parse of the string "2025-02", which is
the timestamp 2025-02-01. -/
def run_sales_feb (db : Database) (_question : String) : Except PyError QueryResult :=
  match db.sales with
  | none => .error (.keyError "Sales")
  | some ss =>
    .ok (.sales_count "February 2025"
      ((ss.filter (fun s => s.month == Date.mk 2025 2 1)).length)
      ((ss.filter (fun s => s.month == Date.mk 2025 2 1)).map (fun s => s.saleID)))

/-- Branch 5 of `query` (most recent hire). -/
def run_recent_hire (db : Database) (_question : String) : Except PyError QueryResult :=
  match db.employees with
  | none => .error (.keyError "Employees")
  | some es =>
    match firstMaxHire es with
    | none => .error .indexError
    | some e => .ok (.recent_hire e.name e.hireDate e.department)

/-- Branch 6 of `query` (feedback score by name): an empty feedback selection
falls through to `unhandled`. -/
def run_feedbackscore (db : Database) (question : String) : Except PyError QueryResult :=
  match db.employees with
  | none => .error (.keyError "Employees")
  | some es =>
    match extract_name es question with
    | none => .ok (.unhandled question)
    | some nm =>
      match (es.filter (fun e => e.name == nm)).map (fun e => e.employeeID) with
      | [] => .error .indexError
      | eid :: _ =>
        match db.feedback with
        | none => .error (.keyError "Feedback")
        | some fs =>
          match fs.filter (fun f => f.employeeID == eid) with
          | [] => .ok (.unhandled question)
          | f :: _ => .ok (.feedback_score nm f.feedbackScore f.comments)

/-- Branch 7 of `query` (department lookup by name). -/
def run_which_department (db : Database) (question : String) : Except PyError QueryResult :=
  match db.employees with
  | none => .error (.keyError "Employees")
  | some es =>
    match extract_name es question with
    | none => .ok (.unhandled question)
    | some nm =>
      match (es.filter (fun e => e.name == nm)).map (fun e => e.department) with
      | [] => .error .indexError
      | dept :: _ => .ok (.employee_department nm dept)

/-- Branch 8 of `query` (sale amount by id): the regex runs before the Sales
sheet is touched; a failed search raises when `.group` is taken. -/
def run_salesamount (db : Database) (question : String) : Except PyError QueryResult :=
  if hasSub "saleid" (stripSpaces (lowerStr question)) then
    match searchKeyNum "saleid".data (lowerStr question).data with
    | none => .error .attributeError
    | some sid =>
      match db.sales with
      | none => .error (.keyError "Sales")
      | some ss =>
        match (ss.filter (fun s => s.saleID == (sid : Int))).map (fun s => s.salesAmount) with
        | [] => .error .indexError
        | amt :: _ => .ok (.sale_amount (sid : Int) amt)
  else .ok (.unhandled question)

/-- Branch 9 of `query` (needs-improvement feedback): an empty selection falls
through; a matching feedback row whose employee id is unknown raises. -/
def run_needs_improvement (db : Database) (question : String) : Except PyError QueryResult :=
  match db.feedback with
  | none => .error (.keyError "Feedback")
  | some fs =>
    match fs.filter (fun f => hasSub "needs improvement" (lowerStr f.comments)) with
    | [] => .ok (.unhandled question)
    | f :: _ =>
      match db.employees with
      | none => .error (.keyError "Employees")
      | some es =>
        match es.filter (fun e => e.employeeID == f.employeeID) with
        | [] => .error .indexError
        | e :: _ => .ok (.needs_improvement e.name f.feedbackID)

/-- Branch 10 of `query` (January total sales): "2025-01" parses to the
timestamp 2025-01-01. -/
def run_total_sales_jan (db : Database) (_question : String) : Except PyError QueryResult :=
  match db.sales with
  | none => .error (.keyError "Sales")
  | some ss =>
    .ok (.total_sales "January 2025"
      (sumRat ((ss.filter (fun s => s.month == Date.mk 2025 1 1)).map (fun s => s.salesAmount))))

/-- Branch 11 of `query` (top-sales employee): without the employee_sales
view (`hasattr` fails) the branch body is skipped and the function falls
through to `unhandled`. -/
def run_highest_total_sales (db : Database) (question : String) : Except PyError QueryResult :=
  match db.employee_sales with
  | none => .ok (.unhandled question)
  | some rows =>
    match bestBy (fun v w => decide (w < v)) (group_sum_sales rows) with
    | none => .error .valueError
    | some (nm, tot) => .ok (.top_sales_employee nm tot)

/-- Branch 12 of `query` (average salary by department). -/
def run_avg_salary_dept (db : Database) (question : String) : Except PyError QueryResult :=
  match db.employees with
  | none => .error (.keyError "Employees")
  | some es =>
    match extract_department es question with
    | none => .ok (.unhandled question)
    | some dept =>
      .ok (.avg_salary dept (meanRat ((es.filter (fun e => e.department == dept)).map (fun e => e.salary))))

/-- Branch 13 of `query` (count of feedback score 5): checked against the
original, un-lowered question text; without a "5" it falls through. -/
def run_feedback_count (db : Database) (question : String) : Except PyError QueryResult :=
  if hasSub "5" question then
    match db.feedback with
    | none => .error (.keyError "Feedback")
    | some fs => .ok (.feedback_count 5 ((fs.filter (fun f => f.feedbackScore == 5)).length))
  else .ok (.unhandled question)

/-- Branch 14 of `query` (total payroll). -/
def run_total_payroll (db : Database) (_question : String) : Except PyError QueryResult :=
  match db.employees with
  | none => .error (.keyError "Employees")
  | some es => .ok (.total_payroll (sumRat (es.map (fun e => e.salary))))

/-- Branch 15 of `query` (top sales month). -/
def run_top_sales_month (db : Database) (_question : String) : Except PyError QueryResult :=
  match db.sales with
  | none => .error (.keyError "Sales")
  | some ss =>
    match bestBy (fun v w => decide (w < v)) (group_sum_month ss) with
    | none => .error .valueError
    | some (m, tot) => .ok (.top_sales_month m tot)

/-- Branch 16 of `query` (average feedback score). -/
def run_avg_feedbackscore (db : Database) (_question : String) : Except PyError QueryResult :=
  match db.feedback with
  | none => .error (.keyError "Feedback")
  | some fs => .ok (.avg_feedback (meanRat (fs.map (fun f => (f.feedbackScore : Rat)))))

/-- Branch 17 of `query` (lowest average salary department). -/
def run_lowest_avg_salary (db : Database) (_question : String) : Except PyError QueryResult :=
  match db.employees with
  | none => .error (.keyError "Employees")
  | some es =>
    match bestBy (fun v w => decide (v < w)) (group_mean_salary es) with
    | none => .error .valueError
    | some (d, avg) => .ok (.lowest_avg_salary d avg)

/-- Branch 18 of `query` (employees hired before a year): the regex runs
first and raises on a failed search; the year filter compares
`pd.to_datetime(HireDate).dt.year` with the extracted integer. -/
def run_hired_before (db : Database) (question : String) : Except PyError QueryResult :=
  match searchKeyNum "before".data (lowerStr question).data with
  | none => .error .attributeError
  | some yr =>
    match db.employees with
    | none => .error (.keyError "Employees")
    | some es =>
      .ok (.employees_before_year yr
        ((es.filter (fun e => Nat.blt e.hireDate.year yr)).length)
        ((es.filter (fun e => Nat.blt e.hireDate.year yr)).map (fun e => e.name)))

/-- Branch 19 of `query` (employee with most feedback entries). -/
def run_most_feedback (db : Database) (_question : String) : Except PyError QueryResult :=
  match db.feedback with
  | none => .error (.keyError "Feedback")
  | some fs =>
    match bestBy (fun v w => decide (w < v)) (group_size_feedback fs) with
    | none => .error .valueError
    | some (eid, cnt) =>
      match db.employees with
      | none => .error (.keyError "Employees")
      | some es =>
        match es.filter (fun e => e.employeeID == eid) with
        | [] => .error .indexError
        | e :: _ => .ok (.most_feedback e.name cnt)

/-- `DataAnalyzer.query`: the ordered trigger chain of the source, one
`run_*` handler per `elif` body, dispatched in source order.  A branch whose
inner guard fails (an extraction miss, an empty feedback selection, a missing
view, a `5` absent from the question) falls through to the terminal
`unhandled` record, exactly as the Python function falls past the whole
`elif` chain to its final `return`.  Unguarded pandas lookups surface as
`Except.error` in the order the source evaluates them. -/
def query (db : Database) (question : String) : Except PyError QueryResult :=
  if cond_dept_count question then run_dept_count db question
  else if cond_salary_of question then run_salary_of db question
  else if cond_highest_salary question then run_highest_salary db question
  else if cond_sales_feb question then run_sales_feb db question
  else if cond_recent_hire question then run_recent_hire db question
  else if cond_feedbackscore question then run_feedbackscore db question
  else if cond_which_department question then run_which_department db question
  else if cond_salesamount question then run_salesamount db question
  else if cond_needs_improvement question then run_needs_improvement db question
  else if cond_total_sales_jan question then run_total_sales_jan db question
  else if cond_highest_total_sales question then run_highest_total_sales db question
  else if cond_avg_salary_dept question then run_avg_salary_dept db question
  else if cond_feedback_count question then run_feedback_count db question
  else if cond_total_payroll question then run_total_payroll db question
  else if cond_top_sales_month question then run_top_sales_month db question
  else if cond_avg_feedbackscore question then run_avg_feedbackscore db question
  else if cond_lowest_avg_salary question then run_lowest_avg_salary db question
  else if cond_hired_before question then run_hired_before db question
  else if cond_most_feedback question then run_most_feedback db question
  else .ok (.unhandled question)

/-- Raw content of one loaded column before classification: a recognized
numeric dtype, a recognized datetime dtype, or an object column of text
values. -/
inductive ColContent where
  | numericCol : ColContent
  | datetimeCol : ColContent
  | textCol : List String → ColContent
deriving DecidableEq, Repr

/-- One raw column of a freshly loaded sheet. -/
structure RawColumn where
  name : String
  content : ColContent
deriving DecidableEq, Repr

/-- Does a text value parse as a date?  Models `pd.to_datetime` success on the
ISO-style year-month and year-month-day forms this repository's data uses;
pandas accepts further formats, and no claim depends on which strings parse. -/
def parse_date (s : String) : Option Date :=
  match s.splitOn "-" with
  | [y, m] =>
    if !y.data.isEmpty && y.data.all Char.isDigit && !m.data.isEmpty && m.data.all Char.isDigit
        && decide (1 ≤ digitsToNat m.data) && decide (digitsToNat m.data ≤ 12) then
      some ⟨digitsToNat y.data, digitsToNat m.data, 1⟩
    else none
  | [y, m, d] =>
    if !y.data.isEmpty && y.data.all Char.isDigit && !m.data.isEmpty && m.data.all Char.isDigit
        && !d.data.isEmpty && d.data.all Char.isDigit
        && decide (1 ≤ digitsToNat m.data) && decide (digitsToNat m.data ≤ 12)
        && decide (1 ≤ digitsToNat d.data) && decide (digitsToNat d.data ≤ 31) then
      some ⟨digitsToNat y.data, digitsToNat m.data, digitsToNat d.data⟩
    else none
  | _ => none

/-- The three exclusive classification outcomes of `_analyze_sheet`. -/
inductive ColClass where
  | num : ColClass
  | date : ColClass
  | cat : ColClass
deriving DecidableEq, Repr

/-- The classification decision of `_analyze_sheet` for one column: numeric
dtype stays numeric; datetime dtype is a date; a text column is a date when
every value parses (`pd.to_datetime` on the whole column succeeds, vacuously
so for an empty column) and categorical otherwise. -/
def classify_content : ColContent → ColClass
  | .numericCol => .num
  | .datetimeCol => .date
  | .textCol vals => if vals.all (fun v => (parse_date v).isSome) then .date else .cat

/-- The id-tag test of `_analyze_sheet`:
`re.match(r".*id.*", low) and not re.match(r".*idea.*", low)` on the
lower-cased name.  Because `re.match` anchors at the start and `.` does not
cross a newline, both patterns only inspect the first line of the name. -/
def id_tag (colName : String) : Bool :=
  hasSubList "id".data ((lowerStr colName).data.takeWhile (fun c => c != '\n')) &&
    !hasSubList "idea".data ((lowerStr colName).data.takeWhile (fun c => c != '\n'))

/-- The four column-name sets computed by `_analyze_sheet`. -/
structure ColumnTypes where
  numeric : List String
  categorical : List String
  date : List String
  id : List String
deriving DecidableEq, Repr

/-- One step of `_analyze_sheet`'s column loop: append the name to the list of
its class, then independently to `id` when the id tag applies. -/
def analyze_step (acc : ColumnTypes) (col : RawColumn) : ColumnTypes :=
  let acc2 :=
    match classify_content col.content with
    | .num => { acc with numeric := acc.numeric ++ [col.name] }
    | .date => { acc with date := acc.date ++ [col.name] }
    | .cat => { acc with categorical := acc.categorical ++ [col.name] }
  if id_tag col.name then { acc2 with id := acc2.id ++ [col.name] } else acc2

/-- `_analyze_sheet`: classify every column of a sheet in column order. -/
def analyze_sheet (cols : List RawColumn) : ColumnTypes :=
  cols.foldl analyze_step ⟨[], [], [], []⟩

/-- Two-digit zero-padded rendering of a number below 100. -/
def pad2 (n : Nat) : String :=
  if n < 10 then "0" ++ toString n else toString n

/-- Four-digit zero-padded year, as `strftime("%Y")` renders it. -/
def pad4 (n : Nat) : String :=
  if n < 10 then "000" ++ toString n
  else if n < 100 then "00" ++ toString n
  else if n < 1000 then "0" ++ toString n
  else toString n

/-- Insert a comma after every group of three characters of a reversed digit
list (helper for the thousands separators of Python's `:,` format). -/
def commaChunks : List Char → List Char
  | [] => []
  | [a] => [a]
  | [a, b] => [a, b]
  | [a, b, c] => [a, b, c]
  | a :: b :: c :: rest => a :: b :: c :: ',' :: commaChunks rest

/-- Decimal digits of a natural number with thousands separators. -/
def withCommas (n : Nat) : String :=
  String.mk (commaChunks (toString n).data.reverse).reverse

/-- Python `f"{x:,.2f}"`: two decimal places and thousands separators.
Rounding is to the nearest cent (ties upward); Python rounds the nearest
float representation half-even, and no claim depends on the tie direction. -/
def fmtMoney (x : Rat) : String :=
  let cents := Rat.floor (x * 100 + 1 / 2)
  let n := cents.natAbs
  (if cents < 0 then "-" else "") ++ withCommas (n / 100) ++ "." ++ pad2 (n % 100)

/-- Python `f"{x:.2f}"`: two decimal places without separators. -/
def fmtFixed2 (x : Rat) : String :=
  let cents := Rat.floor (x * 100 + 1 / 2)
  let n := cents.natAbs
  (if cents < 0 then "-" else "") ++ toString (n / 100) ++ "." ++ pad2 (n % 100)

/-- `strftime("%Y-%m-%d")` on a date. -/
def fmtDate (d : Date) : String :=
  pad4 d.year ++ "-" ++ pad2 d.month ++ "-" ++ pad2 d.day

/-- `LLMHandler._format_analysis_result`: each known tag maps to its fixed
template, always beginning "Answer: "; the `unhandled` tag returns nothing.
The source's trailing check for an `error` key has no producer: no record
built by `query` carries one, so that branch is dead and the fall-through is
`none` exactly for `unhandled`. -/
def format_analysis_result (result : QueryResult) (_question : String) : Option String :=
  match result with
  | .department_count dept count names =>
    some ("Answer: " ++ toString count ++ " employees in " ++ dept ++ " department: " ++
      String.intercalate ", " names)
  | .employee_salary nm sal =>
    some ("Answer: " ++ nm ++ "\x27s salary is $" ++ fmtMoney sal)
  | .highest_salary nm sal dept =>
    some ("Answer: " ++ nm ++ " has the highest salary ($" ++ fmtMoney sal ++ ") in " ++
      dept ++ " department")
  | .sales_count month count ids =>
    some ("Answer: " ++ toString count ++ " sales in " ++ month ++ " (SaleIDs: " ++
      String.intercalate ", " (ids.map toString) ++ ")")
  | .recent_hire nm d dept =>
    some ("Answer: " ++ nm ++ " was hired most recently on " ++ fmtDate d ++ " in " ++
      dept ++ " department")
  | .feedback_score nm score comment =>
    some ("Answer: " ++ nm ++ "\x27s FeedbackScore is " ++ toString score ++ " (" ++
      comment ++ ")")
  | .employee_department nm dept =>
    some ("Answer: " ++ nm ++ " belongs to " ++ dept ++ " department")
  | .sale_amount sid amt =>
    some ("Answer: SalesAmount for SaleID " ++ toString sid ++ " is $" ++ fmtMoney amt)
  | .needs_improvement nm fid =>
    some ("Answer: " ++ nm ++ " received \x27Needs Improvement\x27 feedback (FeedbackID: " ++
      toString fid ++ ")")
  | .total_sales month tot =>
    some ("Answer: Total sales for " ++ month ++ " is $" ++ fmtMoney tot)
  | .top_sales_employee nm tot =>
    some ("Answer: " ++ nm ++ " has the highest total sales ($" ++ fmtMoney tot ++ ")")
  | .avg_salary dept avg =>
    some ("Answer: Average salary in " ++ dept ++ " department is $" ++ fmtMoney avg)
  | .feedback_count score count =>
    some ("Answer: " ++ toString count ++ " employees have FeedbackScore of " ++ toString score)
  | .total_payroll tot =>
    some ("Answer: Total payroll expense is $" ++ fmtMoney tot)
  | .top_sales_month m tot =>
    some ("Answer: " ++ fmtDate m ++ " had the highest total sales ($" ++ fmtMoney tot ++ ")")
  | .avg_feedback avg =>
    some ("Answer: Average FeedbackScore across all employees is " ++ fmtFixed2 avg)
  | .lowest_avg_salary dept avg =>
    some ("Answer: " ++ dept ++ " department has the lowest average salary ($" ++
      fmtMoney avg ++ ")")
  | .employees_before_year yr count names =>
    some ("Answer: " ++ toString count ++ " employees were hired before " ++ toString yr ++
      ": " ++ String.intercalate ", " names)
  | .most_feedback nm count =>
    some ("Answer: " ++ nm ++ " has the most feedback entries (" ++ toString count ++ ")")
  | .unhandled _ => none

/-- One entry of the conversation log. -/
structure ChatEntry where
  role : String
  content : String
deriving DecidableEq, Repr

/-- `LLMHandler._add_to_history`: append one entry to the log. -/
def add_to_history (hist : List ChatEntry) (text : String) (role : String) : List ChatEntry :=
  hist ++ [⟨role, text⟩]

/-- `LLMHandler._ask_llm`: the remote chat call, modelled by its outcome —
`Except.ok` carries the model's reply text, `Except.error` the message of
whatever exception the `try` block raised.  The `except` clause converts any
exception into the fixed error text; nothing propagates. -/
def ask_llm (_question : String) (remote : Except String String) : String :=
  match remote with
  | .ok content => content
  | .error e => "Answer: Error processing your question: " ++ e

/-- The mutable state of an `LLMHandler`: the loaded analyzer tables and the
conversation log. -/
structure LLMState where
  analyzer : Database
  history : List ChatEntry
deriving DecidableEq, Repr

/-- `LLMHandler.get_answer`: log the question, run the structured query,
return the formatted direct answer when one exists (and does not start with
"Could not"), otherwise the fallback reply; the chosen answer is logged as
the assistant entry.  A query-time fault propagates as in Python. -/
def get_answer (s : LLMState) (question : String) (remote : Except String String) :
    Except PyError (String × LLMState) :=
  let h1 := add_to_history s.history question "user"
  match query s.analyzer question with
  | .error e => .error e
  | .ok result =>
    match format_analysis_result result question with
    | some direct =>
      if direct != "" && !leadsWith "Could not".data direct.data then
        .ok (direct, ⟨s.analyzer, add_to_history h1 direct "assistant"⟩)
      else
        .ok (ask_llm question remote,
          ⟨s.analyzer, add_to_history h1 (ask_llm question remote) "assistant"⟩)
    | none =>
      .ok (ask_llm question remote,
        ⟨s.analyzer, add_to_history h1 (ask_llm question remote) "assistant"⟩)

/-- `LLMHandler.clear_history`: empty the conversation log, touching nothing
else. -/
def clear_history (s : LLMState) : LLMState :=
  ⟨s.analyzer, []⟩

/-- The workbook with none of the three recognized sheets. -/
def dbEmpty : Database :=
  { employees := none, sales := none, feedback := none }

/-- The Sales table of spec scenario 3: two February sales with day precision,
as the classifier stores them after coercing `Month` to dates. -/
def dbC1 : Database :=
  { employees := none
    sales := some [⟨101, 1, ⟨2025, 2, 1⟩, 200⟩, ⟨102, 1, ⟨2025, 2, 15⟩, 300⟩]
    feedback := none }

/-- A one-employee Employees sheet (no Sales, no Feedback). -/
def dbAlice : Database :=
  { employees := some [⟨1, "Alice", "Sales", 50000, ⟨2024, 1, 10⟩⟩]
    sales := none
    feedback := none }

/-- C1: evaluating the code on the claim's input.  The claim (spec scenario 3)
expects count = 2 and sale_ids = [101, 102], but after the classifier coerces
`Month` to dates, the filter `Month == "2025-02"` compares against the parsed
timestamp 2025-02-01, so only SaleID 101 matches: the code answers count = 1,
sale_ids = [101]. -/
theorem c1_february_sales_on_failing_input :
    query dbC1 "How many sales in February?" =
      Except.ok (QueryResult.sales_count "February 2025" 1 [101]) := by
  rfl

/-- Dispatch of `query` when branch 1 is the first trigger that fires. -/
lemma query_branch_1 (db : Database) (q : String) (h1 : cond_dept_count q = true) :
    query db q = run_dept_count db q := by
  unfold query
  rw [if_pos h1]

/-- Dispatch of `query` when branch 2 is the first trigger that fires. -/
lemma query_branch_2 (db : Database) (q : String) (h1 : cond_dept_count q = false) (h2 : cond_salary_of q = true) :
    query db q = run_salary_of db q := by
  unfold query
  rw [if_neg (by simp [h1]), if_pos h2]

/-- Dispatch of `query` when branch 3 is the first trigger that fires. -/
lemma query_branch_3 (db : Database) (q : String) (h1 : cond_dept_count q = false) (h2 : cond_salary_of q = false) (h3 : cond_highest_salary q = true) :
    query db q = run_highest_salary db q := by
  unfold query
  rw [if_neg (by simp [h1]), if_neg (by simp [h2]), if_pos h3]

/-- Dispatch of `query` when branch 4 is the first trigger that fires. -/
lemma query_branch_4 (db : Database) (q : String) (h1 : cond_dept_count q = false) (h2 : cond_salary_of q = false) (h3 : cond_highest_salary q = false) (h4 : cond_sales_feb q = true) :
    query db q = run_sales_feb db q := by
  unfold query
  rw [if_neg (by simp [h1]), if_neg (by simp [h2]), if_neg (by simp [h3]), if_pos h4]

/-- Dispatch of `query` when branch 5 is the first trigger that fires. -/
lemma query_branch_5 (db : Database) (q : String) (h1 : cond_dept_count q = false) (h2 : cond_salary_of q = false) (h3 : cond_highest_salary q = false) (h4 : cond_sales_feb q = false) (h5 : cond_recent_hire q = true) :
    query db q = run_recent_hire db q := by
  unfold query
  rw [if_neg (by simp [h1]), if_neg (by simp [h2]), if_neg (by simp [h3]), if_neg (by simp [h4]), if_pos h5]

/-- Dispatch of `query` when branch 6 is the first trigger that fires. -/
lemma query_branch_6 (db : Database) (q : String) (h1 : cond_dept_count q = false) (h2 : cond_salary_of q = false) (h3 : cond_highest_salary q = false) (h4 : cond_sales_feb q = false) (h5 : cond_recent_hire q = false) (h6 : cond_feedbackscore q = true) :
    query db q = run_feedbackscore db q := by
  unfold query
  rw [if_neg (by simp [h1]), if_neg (by simp [h2]), if_neg (by simp [h3]), if_neg (by simp [h4]), if_neg (by simp [h5]), if_pos h6]

/-- Dispatch of `query` when branch 7 is the first trigger that fires. -/
lemma query_branch_7 (db : Database) (q : String) (h1 : cond_dept_count q = false) (h2 : cond_salary_of q = false) (h3 : cond_highest_salary q = false) (h4 : cond_sales_feb q = false) (h5 : cond_recent_hire q = false) (h6 : cond_feedbackscore q = false) (h7 : cond_which_department q = true) :
    query db q = run_which_department db q := by
  unfold query
  rw [if_neg (by simp [h1]), if_neg (by simp [h2]), if_neg (by simp [h3]), if_neg (by simp [h4]), if_neg (by simp [h5]), if_neg (by simp [h6]), if_pos h7]

/-- Dispatch of `query` when branch 8 is the first trigger that fires. -/
lemma query_branch_8 (db : Database) (q : String) (h1 : cond_dept_count q = false) (h2 : cond_salary_of q = false) (h3 : cond_highest_salary q = false) (h4 : cond_sales_feb q = false) (h5 : cond_recent_hire q = false) (h6 : cond_feedbackscore q = false) (h7 : cond_which_department q = false) (h8 : cond_salesamount q = true) :
    query db q = run_salesamount db q := by
  unfold query
  rw [if_neg (by simp [h1]), if_neg (by simp [h2]), if_neg (by simp [h3]), if_neg (by simp [h4]), if_neg (by simp [h5]), if_neg (by simp [h6]), if_neg (by simp [h7]), if_pos h8]

/-- Dispatch of `query` when branch 9 is the first trigger that fires. -/
lemma query_branch_9 (db : Database) (q : String) (h1 : cond_dept_count q = false) (h2 : cond_salary_of q = false) (h3 : cond_highest_salary q = false) (h4 : cond_sales_feb q = false) (h5 : cond_recent_hire q = false) (h6 : cond_feedbackscore q = false) (h7 : cond_which_department q = false) (h8 : cond_salesamount q = false) (h9 : cond_needs_improvement q = true) :
    query db q = run_needs_improvement db q := by
  unfold query
  rw [if_neg (by simp [h1]), if_neg (by simp [h2]), if_neg (by simp [h3]), if_neg (by simp [h4]), if_neg (by simp [h5]), if_neg (by simp [h6]), if_neg (by simp [h7]), if_neg (by simp [h8]), if_pos h9]

/-- Dispatch of `query` when branch 10 is the first trigger that fires. -/
lemma query_branch_10 (db : Database) (q : String) (h1 : cond_dept_count q = false) (h2 : cond_salary_of q = false) (h3 : cond_highest_salary q = false) (h4 : cond_sales_feb q = false) (h5 : cond_recent_hire q = false) (h6 : cond_feedbackscore q = false) (h7 : cond_which_department q = false) (h8 : cond_salesamount q = false) (h9 : cond_needs_improvement q = false) (h10 : cond_total_sales_jan q = true) :
    query db q = run_total_sales_jan db q := by
  unfold query
  rw [if_neg (by simp [h1]), if_neg (by simp [h2]), if_neg (by simp [h3]), if_neg (by simp [h4]), if_neg (by simp [h5]), if_neg (by simp [h6]), if_neg (by simp [h7]), if_neg (by simp [h8]), if_neg (by simp [h9]), if_pos h10]

/-- Dispatch of `query` when branch 11 is the first trigger that fires. -/
lemma query_branch_11 (db : Database) (q : String) (h1 : cond_dept_count q = false) (h2 : cond_salary_of q = false) (h3 : cond_highest_salary q = false) (h4 : cond_sales_feb q = false) (h5 : cond_recent_hire q = false) (h6 : cond_feedbackscore q = false) (h7 : cond_which_department q = false) (h8 : cond_salesamount q = false) (h9 : cond_needs_improvement q = false) (h10 : cond_total_sales_jan q = false) (h11 : cond_highest_total_sales q = true) :
    query db q = run_highest_total_sales db q := by
  unfold query
  rw [if_neg (by simp [h1]), if_neg (by simp [h2]), if_neg (by simp [h3]), if_neg (by simp [h4]), if_neg (by simp [h5]), if_neg (by simp [h6]), if_neg (by simp [h7]), if_neg (by simp [h8]), if_neg (by simp [h9]), if_neg (by simp [h10]), if_pos h11]

/-- Dispatch of `query` when branch 12 is the first trigger that fires. -/
lemma query_branch_12 (db : Database) (q : String) (h1 : cond_dept_count q = false) (h2 : cond_salary_of q = false) (h3 : cond_highest_salary q = false) (h4 : cond_sales_feb q = false) (h5 : cond_recent_hire q = false) (h6 : cond_feedbackscore q = false) (h7 : cond_which_department q = false) (h8 : cond_salesamount q = false) (h9 : cond_needs_improvement q = false) (h10 : cond_total_sales_jan q = false) (h11 : cond_highest_total_sales q = false) (h12 : cond_avg_salary_dept q = true) :
    query db q = run_avg_salary_dept db q := by
  unfold query
  rw [if_neg (by simp [h1]), if_neg (by simp [h2]), if_neg (by simp [h3]), if_neg (by simp [h4]), if_neg (by simp [h5]), if_neg (by simp [h6]), if_neg (by simp [h7]), if_neg (by simp [h8]), if_neg (by simp [h9]), if_neg (by simp [h10]), if_neg (by simp [h11]), if_pos h12]

/-- Dispatch of `query` when branch 13 is the first trigger that fires. -/
lemma query_branch_13 (db : Database) (q : String) (h1 : cond_dept_count q = false) (h2 : cond_salary_of q = false) (h3 : cond_highest_salary q = false) (h4 : cond_sales_feb q = false) (h5 : cond_recent_hire q = false) (h6 : cond_feedbackscore q = false) (h7 : cond_which_department q = false) (h8 : cond_salesamount q = false) (h9 : cond_needs_improvement q = false) (h10 : cond_total_sales_jan q = false) (h11 : cond_highest_total_sales q = false) (h12 : cond_avg_salary_dept q = false) (h13 : cond_feedback_count q = true) :
    query db q = run_feedback_count db q := by
  unfold query
  rw [if_neg (by simp [h1]), if_neg (by simp [h2]), if_neg (by simp [h3]), if_neg (by simp [h4]), if_neg (by simp [h5]), if_neg (by simp [h6]), if_neg (by simp [h7]), if_neg (by simp [h8]), if_neg (by simp [h9]), if_neg (by simp [h10]), if_neg (by simp [h11]), if_neg (by simp [h12]), if_pos h13]

/-- Dispatch of `query` when branch 14 is the first trigger that fires. -/
lemma query_branch_14 (db : Database) (q : String) (h1 : cond_dept_count q = false) (h2 : cond_salary_of q = false) (h3 : cond_highest_salary q = false) (h4 : cond_sales_feb q = false) (h5 : cond_recent_hire q = false) (h6 : cond_feedbackscore q = false) (h7 : cond_which_department q = false) (h8 : cond_salesamount q = false) (h9 : cond_needs_improvement q = false) (h10 : cond_total_sales_jan q = false) (h11 : cond_highest_total_sales q = false) (h12 : cond_avg_salary_dept q = false) (h13 : cond_feedback_count q = false) (h14 : cond_total_payroll q = true) :
    query db q = run_total_payroll db q := by
  unfold query
  rw [if_neg (by simp [h1]), if_neg (by simp [h2]), if_neg (by simp [h3]), if_neg (by simp [h4]), if_neg (by simp [h5]), if_neg (by simp [h6]), if_neg (by simp [h7]), if_neg (by simp [h8]), if_neg (by simp [h9]), if_neg (by simp [h10]), if_neg (by simp [h11]), if_neg (by simp [h12]), if_neg (by simp [h13]), if_pos h14]

/-- Dispatch of `query` when branch 15 is the first trigger that fires. -/
lemma query_branch_15 (db : Database) (q : String) (h1 : cond_dept_count q = false) (h2 : cond_salary_of q = false) (h3 : cond_highest_salary q = false) (h4 : cond_sales_feb q = false) (h5 : cond_recent_hire q = false) (h6 : cond_feedbackscore q = false) (h7 : cond_which_department q = false) (h8 : cond_salesamount q = false) (h9 : cond_needs_improvement q = false) (h10 : cond_total_sales_jan q = false) (h11 : cond_highest_total_sales q = false) (h12 : cond_avg_salary_dept q = false) (h13 : cond_feedback_count q = false) (h14 : cond_total_payroll q = false) (h15 : cond_top_sales_month q = true) :
    query db q = run_top_sales_month db q := by
  unfold query
  rw [if_neg (by simp [h1]), if_neg (by simp [h2]), if_neg (by simp [h3]), if_neg (by simp [h4]), if_neg (by simp [h5]), if_neg (by simp [h6]), if_neg (by simp [h7]), if_neg (by simp [h8]), if_neg (by simp [h9]), if_neg (by simp [h10]), if_neg (by simp [h11]), if_neg (by simp [h12]), if_neg (by simp [h13]), if_neg (by simp [h14]), if_pos h15]

/-- Dispatch of `query` when branch 16 is the first trigger that fires. -/
lemma query_branch_16 (db : Database) (q : String) (h1 : cond_dept_count q = false) (h2 : cond_salary_of q = false) (h3 : cond_highest_salary q = false) (h4 : cond_sales_feb q = false) (h5 : cond_recent_hire q = false) (h6 : cond_feedbackscore q = false) (h7 : cond_which_department q = false) (h8 : cond_salesamount q = false) (h9 : cond_needs_improvement q = false) (h10 : cond_total_sales_jan q = false) (h11 : cond_highest_total_sales q = false) (h12 : cond_avg_salary_dept q = false) (h13 : cond_feedback_count q = false) (h14 : cond_total_payroll q = false) (h15 : cond_top_sales_month q = false) (h16 : cond_avg_feedbackscore q = true) :
    query db q = run_avg_feedbackscore db q := by
  unfold query
  rw [if_neg (by simp [h1]), if_neg (by simp [h2]), if_neg (by simp [h3]), if_neg (by simp [h4]), if_neg (by simp [h5]), if_neg (by simp [h6]), if_neg (by simp [h7]), if_neg (by simp [h8]), if_neg (by simp [h9]), if_neg (by simp [h10]), if_neg (by simp [h11]), if_neg (by simp [h12]), if_neg (by simp [h13]), if_neg (by simp [h14]), if_neg (by simp [h15]), if_pos h16]

/-- Dispatch of `query` when branch 17 is the first trigger that fires. -/
lemma query_branch_17 (db : Database) (q : String) (h1 : cond_dept_count q = false) (h2 : cond_salary_of q = false) (h3 : cond_highest_salary q = false) (h4 : cond_sales_feb q = false) (h5 : cond_recent_hire q = false) (h6 : cond_feedbackscore q = false) (h7 : cond_which_department q = false) (h8 : cond_salesamount q = false) (h9 : cond_needs_improvement q = false) (h10 : cond_total_sales_jan q = false) (h11 : cond_highest_total_sales q = false) (h12 : cond_avg_salary_dept q = false) (h13 : cond_feedback_count q = false) (h14 : cond_total_payroll q = false) (h15 : cond_top_sales_month q = false) (h16 : cond_avg_feedbackscore q = false) (h17 : cond_lowest_avg_salary q = true) :
    query db q = run_lowest_avg_salary db q := by
  unfold query
  rw [if_neg (by simp [h1]), if_neg (by simp [h2]), if_neg (by simp [h3]), if_neg (by simp [h4]), if_neg (by simp [h5]), if_neg (by simp [h6]), if_neg (by simp [h7]), if_neg (by simp [h8]), if_neg (by simp [h9]), if_neg (by simp [h10]), if_neg (by simp [h11]), if_neg (by simp [h12]), if_neg (by simp [h13]), if_neg (by simp [h14]), if_neg (by simp [h15]), if_neg (by simp [h16]), if_pos h17]

/-- Dispatch of `query` when branch 18 is the first trigger that fires. -/
lemma query_branch_18 (db : Database) (q : String) (h1 : cond_dept_count q = false) (h2 : cond_salary_of q = false) (h3 : cond_highest_salary q = false) (h4 : cond_sales_feb q = false) (h5 : cond_recent_hire q = false) (h6 : cond_feedbackscore q = false) (h7 : cond_which_department q = false) (h8 : cond_salesamount q = false) (h9 : cond_needs_improvement q = false) (h10 : cond_total_sales_jan q = false) (h11 : cond_highest_total_sales q = false) (h12 : cond_avg_salary_dept q = false) (h13 : cond_feedback_count q = false) (h14 : cond_total_payroll q = false) (h15 : cond_top_sales_month q = false) (h16 : cond_avg_feedbackscore q = false) (h17 : cond_lowest_avg_salary q = false) (h18 : cond_hired_before q = true) :
    query db q = run_hired_before db q := by
  unfold query
  rw [if_neg (by simp [h1]), if_neg (by simp [h2]), if_neg (by simp [h3]), if_neg (by simp [h4]), if_neg (by simp [h5]), if_neg (by simp [h6]), if_neg (by simp [h7]), if_neg (by simp [h8]), if_neg (by simp [h9]), if_neg (by simp [h10]), if_neg (by simp [h11]), if_neg (by simp [h12]), if_neg (by simp [h13]), if_neg (by simp [h14]), if_neg (by simp [h15]), if_neg (by simp [h16]), if_neg (by simp [h17]), if_pos h18]

/-- Dispatch of `query` when branch 19 is the first trigger that fires. -/
lemma query_branch_19 (db : Database) (q : String) (h1 : cond_dept_count q = false) (h2 : cond_salary_of q = false) (h3 : cond_highest_salary q = false) (h4 : cond_sales_feb q = false) (h5 : cond_recent_hire q = false) (h6 : cond_feedbackscore q = false) (h7 : cond_which_department q = false) (h8 : cond_salesamount q = false) (h9 : cond_needs_improvement q = false) (h10 : cond_total_sales_jan q = false) (h11 : cond_highest_total_sales q = false) (h12 : cond_avg_salary_dept q = false) (h13 : cond_feedback_count q = false) (h14 : cond_total_payroll q = false) (h15 : cond_top_sales_month q = false) (h16 : cond_avg_feedbackscore q = false) (h17 : cond_lowest_avg_salary q = false) (h18 : cond_hired_before q = false) (h19 : cond_most_feedback q = true) :
    query db q = run_most_feedback db q := by
  unfold query
  rw [if_neg (by simp [h1]), if_neg (by simp [h2]), if_neg (by simp [h3]), if_neg (by simp [h4]), if_neg (by simp [h5]), if_neg (by simp [h6]), if_neg (by simp [h7]), if_neg (by simp [h8]), if_neg (by simp [h9]), if_neg (by simp [h10]), if_neg (by simp [h11]), if_neg (by simp [h12]), if_neg (by simp [h13]), if_neg (by simp [h14]), if_neg (by simp [h15]), if_neg (by simp [h16]), if_neg (by simp [h17]), if_neg (by simp [h18]), if_pos h19]

/-- Dispatch of `query` when no trigger fires: the terminal `unhandled`
record carrying the question verbatim. -/
lemma query_branch_none (db : Database) (q : String) (h1 : cond_dept_count q = false) (h2 : cond_salary_of q = false) (h3 : cond_highest_salary q = false) (h4 : cond_sales_feb q = false) (h5 : cond_recent_hire q = false) (h6 : cond_feedbackscore q = false) (h7 : cond_which_department q = false) (h8 : cond_salesamount q = false) (h9 : cond_needs_improvement q = false) (h10 : cond_total_sales_jan q = false) (h11 : cond_highest_total_sales q = false) (h12 : cond_avg_salary_dept q = false) (h13 : cond_feedback_count q = false) (h14 : cond_total_payroll q = false) (h15 : cond_top_sales_month q = false) (h16 : cond_avg_feedbackscore q = false) (h17 : cond_lowest_avg_salary q = false) (h18 : cond_hired_before q = false) (h19 : cond_most_feedback q = false) :
    query db q = Except.ok (QueryResult.unhandled q) := by
  unfold query
  rw [if_neg (by simp [h1]), if_neg (by simp [h2]), if_neg (by simp [h3]), if_neg (by simp [h4]), if_neg (by simp [h5]), if_neg (by simp [h6]), if_neg (by simp [h7]), if_neg (by simp [h8]), if_neg (by simp [h9]), if_neg (by simp [h10]), if_neg (by simp [h11]), if_neg (by simp [h12]), if_neg (by simp [h13]), if_neg (by simp [h14]), if_neg (by simp [h15]), if_neg (by simp [h16]), if_neg (by simp [h17]), if_neg (by simp [h18]), if_neg (by simp [h19])]

/-- C2: the month-specific top-sales branch is unreachable — `query` never
returns a `top_sales_month` record, because its trigger implies the plain
"highest total sales" trigger checked earlier in the chain. -/
theorem c2_top_sales_month_unreachable :
    ∀ (db : Database) (q : String) (r : QueryResult),
      query db q = Except.ok r →
      ∀ (m : Date) (t : Rat), r ≠ QueryResult.top_sales_month m t := by
  intro db q r h m t
  cases hc1 : cond_dept_count q with
  | true =>
    rw [query_branch_1 db q hc1] at h
    unfold run_dept_count at h
    repeat' split at h
    all_goals first
      | exact Except.noConfusion h
      | (injection h with h2; subst h2; simp)
  | false =>
    cases hc2 : cond_salary_of q with
    | true =>
      rw [query_branch_2 db q hc1 hc2] at h
      unfold run_salary_of at h
      repeat' split at h
      all_goals first
        | exact Except.noConfusion h
        | (injection h with h2; subst h2; simp)
    | false =>
      cases hc3 : cond_highest_salary q with
      | true =>
        rw [query_branch_3 db q hc1 hc2 hc3] at h
        unfold run_highest_salary at h
        repeat' split at h
        all_goals first
          | exact Except.noConfusion h
          | (injection h with h2; subst h2; simp)
      | false =>
        cases hc4 : cond_sales_feb q with
        | true =>
          rw [query_branch_4 db q hc1 hc2 hc3 hc4] at h
          unfold run_sales_feb at h
          repeat' split at h
          all_goals first
            | exact Except.noConfusion h
            | (injection h with h2; subst h2; simp)
        | false =>
          cases hc5 : cond_recent_hire q with
          | true =>
            rw [query_branch_5 db q hc1 hc2 hc3 hc4 hc5] at h
            unfold run_recent_hire at h
            repeat' split at h
            all_goals first
              | exact Except.noConfusion h
              | (injection h with h2; subst h2; simp)
          | false =>
            cases hc6 : cond_feedbackscore q with
            | true =>
              rw [query_branch_6 db q hc1 hc2 hc3 hc4 hc5 hc6] at h
              unfold run_feedbackscore at h
              repeat' split at h
              all_goals first
                | exact Except.noConfusion h
                | (injection h with h2; subst h2; simp)
            | false =>
              cases hc7 : cond_which_department q with
              | true =>
                rw [query_branch_7 db q hc1 hc2 hc3 hc4 hc5 hc6 hc7] at h
                unfold run_which_department at h
                repeat' split at h
                all_goals first
                  | exact Except.noConfusion h
                  | (injection h with h2; subst h2; simp)
              | false =>
                cases hc8 : cond_salesamount q with
                | true =>
                  rw [query_branch_8 db q hc1 hc2 hc3 hc4 hc5 hc6 hc7 hc8] at h
                  unfold run_salesamount at h
                  repeat' split at h
                  all_goals first
                    | exact Except.noConfusion h
                    | (injection h with h2; subst h2; simp)
                | false =>
                  cases hc9 : cond_needs_improvement q with
                  | true =>
                    rw [query_branch_9 db q hc1 hc2 hc3 hc4 hc5 hc6 hc7 hc8 hc9] at h
                    unfold run_needs_improvement at h
                    repeat' split at h
                    all_goals first
                      | exact Except.noConfusion h
                      | (injection h with h2; subst h2; simp)
                  | false =>
                    cases hc10 : cond_total_sales_jan q with
                    | true =>
                      rw [query_branch_10 db q hc1 hc2 hc3 hc4 hc5 hc6 hc7 hc8 hc9 hc10] at h
                      unfold run_total_sales_jan at h
                      repeat' split at h
                      all_goals first
                        | exact Except.noConfusion h
                        | (injection h with h2; subst h2; simp)
                    | false =>
                      cases hc11 : cond_highest_total_sales q with
                      | true =>
                        rw [query_branch_11 db q hc1 hc2 hc3 hc4 hc5 hc6 hc7 hc8 hc9 hc10 hc11] at h
                        unfold run_highest_total_sales at h
                        repeat' split at h
                        all_goals first
                          | exact Except.noConfusion h
                          | (injection h with h2; subst h2; simp)
                      | false =>
                        cases hc12 : cond_avg_salary_dept q with
                        | true =>
                          rw [query_branch_12 db q hc1 hc2 hc3 hc4 hc5 hc6 hc7 hc8 hc9 hc10 hc11 hc12] at h
                          unfold run_avg_salary_dept at h
                          repeat' split at h
                          all_goals first
                            | exact Except.noConfusion h
                            | (injection h with h2; subst h2; simp)
                        | false =>
                          cases hc13 : cond_feedback_count q with
                          | true =>
                            rw [query_branch_13 db q hc1 hc2 hc3 hc4 hc5 hc6 hc7 hc8 hc9 hc10 hc11 hc12 hc13] at h
                            unfold run_feedback_count at h
                            repeat' split at h
                            all_goals first
                              | exact Except.noConfusion h
                              | (injection h with h2; subst h2; simp)
                          | false =>
                            cases hc14 : cond_total_payroll q with
                            | true =>
                              rw [query_branch_14 db q hc1 hc2 hc3 hc4 hc5 hc6 hc7 hc8 hc9 hc10 hc11 hc12 hc13 hc14] at h
                              unfold run_total_payroll at h
                              repeat' split at h
                              all_goals first
                                | exact Except.noConfusion h
                                | (injection h with h2; subst h2; simp)
                            | false =>
                              cases hc15 : cond_top_sales_month q with
                              | true => exact absurd hc15 (by simp [cond_top_sales_month, hc11])
                              | false =>
                                cases hc16 : cond_avg_feedbackscore q with
                                | true =>
                                  rw [query_branch_16 db q hc1 hc2 hc3 hc4 hc5 hc6 hc7 hc8 hc9 hc10 hc11 hc12 hc13 hc14 hc15 hc16] at h
                                  unfold run_avg_feedbackscore at h
                                  repeat' split at h
                                  all_goals first
                                    | exact Except.noConfusion h
                                    | (injection h with h2; subst h2; simp)
                                | false =>
                                  cases hc17 : cond_lowest_avg_salary q with
                                  | true =>
                                    rw [query_branch_17 db q hc1 hc2 hc3 hc4 hc5 hc6 hc7 hc8 hc9 hc10 hc11 hc12 hc13 hc14 hc15 hc16 hc17] at h
                                    unfold run_lowest_avg_salary at h
                                    repeat' split at h
                                    all_goals first
                                      | exact Except.noConfusion h
                                      | (injection h with h2; subst h2; simp)
                                  | false =>
                                    cases hc18 : cond_hired_before q with
                                    | true =>
                                      rw [query_branch_18 db q hc1 hc2 hc3 hc4 hc5 hc6 hc7 hc8 hc9 hc10 hc11 hc12 hc13 hc14 hc15 hc16 hc17 hc18] at h
                                      unfold run_hired_before at h
                                      repeat' split at h
                                      all_goals first
                                        | exact Except.noConfusion h
                                        | (injection h with h2; subst h2; simp)
                                    | false =>
                                      cases hc19 : cond_most_feedback q with
                                      | true =>
                                        rw [query_branch_19 db q hc1 hc2 hc3 hc4 hc5 hc6 hc7 hc8 hc9 hc10 hc11 hc12 hc13 hc14 hc15 hc16 hc17 hc18 hc19] at h
                                        unfold run_most_feedback at h
                                        repeat' split at h
                                        all_goals first
                                          | exact Except.noConfusion h
                                          | (injection h with h2; subst h2; simp)
                                      | false =>
                                        rw [query_branch_none db q hc1 hc2 hc3 hc4 hc5 hc6 hc7 hc8 hc9 hc10 hc11 hc12 hc13 hc14 hc15 hc16 hc17 hc18 hc19] at h
                                        injection h with h2
                                        subst h2
                                        simp

/-- Witness for C2 at a concrete state and question. -/
theorem c2_witness :
    QueryResult.unhandled "hello" ≠ QueryResult.top_sales_month ⟨2025, 1, 1⟩ 0 :=
  c2_top_sales_month_unreachable dbEmpty "hello" (QueryResult.unhandled "hello")
    (by rfl) ⟨2025, 1, 1⟩ 0

/-- When no trigger matches, the whole chain falls through to the terminal
`unhandled` record carrying the question text verbatim. -/
lemma query_no_trigger (db : Database) (q : String) (h : matches_any q = false) :
    query db q = Except.ok (QueryResult.unhandled q) := by
  have h1 : cond_dept_count q = false := by
    cases hh : cond_dept_count q with
    | false => rfl
    | true => exact absurd h (by simp [matches_any, hh])
  have h2 : cond_salary_of q = false := by
    cases hh : cond_salary_of q with
    | false => rfl
    | true => exact absurd h (by simp [matches_any, hh])
  have h3 : cond_highest_salary q = false := by
    cases hh : cond_highest_salary q with
    | false => rfl
    | true => exact absurd h (by simp [matches_any, hh])
  have h4 : cond_sales_feb q = false := by
    cases hh : cond_sales_feb q with
    | false => rfl
    | true => exact absurd h (by simp [matches_any, hh])
  have h5 : cond_recent_hire q = false := by
    cases hh : cond_recent_hire q with
    | false => rfl
    | true => exact absurd h (by simp [matches_any, hh])
  have h6 : cond_feedbackscore q = false := by
    cases hh : cond_feedbackscore q with
    | false => rfl
    | true => exact absurd h (by simp [matches_any, hh])
  have h7 : cond_which_department q = false := by
    cases hh : cond_which_department q with
    | false => rfl
    | true => exact absurd h (by simp [matches_any, hh])
  have h8 : cond_salesamount q = false := by
    cases hh : cond_salesamount q with
    | false => rfl
    | true => exact absurd h (by simp [matches_any, hh])
  have h9 : cond_needs_improvement q = false := by
    cases hh : cond_needs_improvement q with
    | false => rfl
    | true => exact absurd h (by simp [matches_any, hh])
  have h10 : cond_total_sales_jan q = false := by
    cases hh : cond_total_sales_jan q with
    | false => rfl
    | true => exact absurd h (by simp [matches_any, hh])
  have h11 : cond_highest_total_sales q = false := by
    cases hh : cond_highest_total_sales q with
    | false => rfl
    | true => exact absurd h (by simp [matches_any, hh])
  have h12 : cond_avg_salary_dept q = false := by
    cases hh : cond_avg_salary_dept q with
    | false => rfl
    | true => exact absurd h (by simp [matches_any, hh])
  have h13 : cond_feedback_count q = false := by
    cases hh : cond_feedback_count q with
    | false => rfl
    | true => exact absurd h (by simp [matches_any, hh])
  have h14 : cond_total_payroll q = false := by
    cases hh : cond_total_payroll q with
    | false => rfl
    | true => exact absurd h (by simp [matches_any, hh])
  have h15 : cond_top_sales_month q = false := by
    cases hh : cond_top_sales_month q with
    | false => rfl
    | true => exact absurd h (by simp [matches_any, hh])
  have h16 : cond_avg_feedbackscore q = false := by
    cases hh : cond_avg_feedbackscore q with
    | false => rfl
    | true => exact absurd h (by simp [matches_any, hh])
  have h17 : cond_lowest_avg_salary q = false := by
    cases hh : cond_lowest_avg_salary q with
    | false => rfl
    | true => exact absurd h (by simp [matches_any, hh])
  have h18 : cond_hired_before q = false := by
    cases hh : cond_hired_before q with
    | false => rfl
    | true => exact absurd h (by simp [matches_any, hh])
  have h19 : cond_most_feedback q = false := by
    cases hh : cond_most_feedback q with
    | false => rfl
    | true => exact absurd h (by simp [matches_any, hh])
  exact query_branch_none db q h1 h2 h3 h4 h5 h6 h7 h8 h9 h10 h11 h12 h13 h14 h15 h16 h17 h18 h19

/-- C3 counterexample: on the question "were employees hired before now" the
hired-before branch fires, its regex search finds no digits, and the `.group`
call raises `AttributeError` — whatever the loaded tables are, so `query` is
not error-free. -/
theorem c3_counterexample_raises :
    query dbEmpty "were employees hired before now" = Except.error PyError.attributeError := by
  rfl

/-- C3 (amended): `query` always returns exactly one result record when it
returns at all, and for every question matching no trigger the result is the
`unhandled` record carrying the original question text verbatim; however a
question that does match a trigger can raise (unguarded regex and lookups),
so "never raises" does not hold of the whole input space. -/
theorem c3_no_trigger_unhandled_verbatim :
    ∀ (db : Database) (q : String), matches_any q = false →
      query db q = Except.ok (QueryResult.unhandled q) :=
  fun db q h => query_no_trigger db q h

/-- Witness for C3 at a concrete no-trigger question. -/
theorem c3_witness :
    query dbEmpty "What is the weather today?" =
      Except.ok (QueryResult.unhandled "What is the weather today?") :=
  c3_no_trigger_unhandled_verbatim dbEmpty "What is the weather today?" (by rfl)

/-- C8: if the remote call inside the fallback fails with any exception
message, the fallback returns the fixed error text with that message appended
— the `except` clause converts the exception into a `String` result, so
nothing propagates to the caller. -/
theorem c8_remote_failure_recovered :
    ∀ (q e : String),
      ask_llm q (Except.error e) = "Answer: Error processing your question: " ++ e :=
  fun _ _ => rfl

/-- A successful `get_answer` leaves the tables untouched and appends exactly
the user question and then the chosen assistant answer to the log. -/
lemma get_answer_ok_state {s : LLMState} {q : String} {remote : Except String String}
    {a : String} {s2 : LLMState} (h : get_answer s q remote = .ok (a, s2)) :
    s2.analyzer = s.analyzer ∧
      s2.history = s.history ++ [⟨"user", q⟩, ⟨"assistant", a⟩] := by
  unfold get_answer at h
  repeat' split at h
  all_goals first
    | exact Except.noConfusion h
    | (injection h with h2; cases h2; exact ⟨rfl, by simp [add_to_history]⟩)

/-- C9: clearing the history empties the log (length 0) without touching the
loaded tables, and each subsequent successful `get_answer` appends exactly the
user question followed by the assistant answer, so the log has length 2 after
clear plus one question/answer pair. -/
theorem c9_clear_history_then_two_entries :
    (∀ s : LLMState, (clear_history s).history = [] ∧ (clear_history s).analyzer = s.analyzer) ∧
    (∀ (s : LLMState) (q : String) (remote : Except String String) (a : String) (s2 : LLMState),
      get_answer s q remote = .ok (a, s2) →
        s2.analyzer = s.analyzer ∧
        s2.history = s.history ++ [⟨"user", q⟩, ⟨"assistant", a⟩]) ∧
    (∀ (s : LLMState) (q : String) (remote : Except String String) (a : String) (s2 : LLMState),
      get_answer (clear_history s) q remote = .ok (a, s2) → s2.history.length = 2) := by
  refine ⟨fun s => ⟨rfl, rfl⟩, fun s q remote a s2 h => get_answer_ok_state h, ?_⟩
  intro s q remote a s2 h
  rw [(get_answer_ok_state h).2]
  rfl

/-- Witness for C9: a concrete cleared state plus one question/answer pair. -/
theorem c9_witness :
    (clear_history ⟨dbEmpty, [⟨"user", "old"⟩]⟩).history = [] ∧
    ((⟨dbEmpty, [⟨"assistant", "Answer: hi"⟩, ⟨"user", "hello"⟩]⟩ : LLMState).history.length = 2) := by
  refine ⟨(c9_clear_history_then_two_entries.1 ⟨dbEmpty, [⟨"user", "old"⟩]⟩).1, ?_⟩
  exact c9_clear_history_then_two_entries.2.2 ⟨dbEmpty, [⟨"user", "old"⟩]⟩ "hello"
    (Except.ok "Answer: hi") "Answer: hi"
    ⟨dbEmpty, [⟨"user", "hello"⟩, ⟨"assistant", "Answer: hi"⟩]⟩ (by rfl)

/-- Unfolding `analyze_sheet`'s fold: the numeric list collects, in order,
the names of the columns classified numeric. -/
lemma analyze_foldl_numeric : ∀ (cols : List RawColumn) (acc : ColumnTypes),
    (cols.foldl analyze_step acc).numeric =
      acc.numeric ++ (cols.filter (fun c => classify_content c.content == ColClass.num)).map
        (fun c => c.name) := by
  intro cols
  induction cols with
  | nil => intro acc; simp
  | cons c cs ih =>
    intro acc
    rw [List.foldl_cons, ih]
    rcases hcl : classify_content c.content <;> rcases hid : id_tag c.name <;>
      simp [analyze_step, hcl, hid, List.filter_cons]

/-- Unfolding `analyze_sheet`'s fold: the categorical list collects the names
of the columns classified categorical. -/
lemma analyze_foldl_categorical : ∀ (cols : List RawColumn) (acc : ColumnTypes),
    (cols.foldl analyze_step acc).categorical =
      acc.categorical ++ (cols.filter (fun c => classify_content c.content == ColClass.cat)).map
        (fun c => c.name) := by
  intro cols
  induction cols with
  | nil => intro acc; simp
  | cons c cs ih =>
    intro acc
    rw [List.foldl_cons, ih]
    rcases hcl : classify_content c.content <;> rcases hid : id_tag c.name <;>
      simp [analyze_step, hcl, hid, List.filter_cons]

/-- Unfolding `analyze_sheet`'s fold: the date list collects the names of the
columns classified date. -/
lemma analyze_foldl_date : ∀ (cols : List RawColumn) (acc : ColumnTypes),
    (cols.foldl analyze_step acc).date =
      acc.date ++ (cols.filter (fun c => classify_content c.content == ColClass.date)).map
        (fun c => c.name) := by
  intro cols
  induction cols with
  | nil => intro acc; simp
  | cons c cs ih =>
    intro acc
    rw [List.foldl_cons, ih]
    rcases hcl : classify_content c.content <;> rcases hid : id_tag c.name <;>
      simp [analyze_step, hcl, hid, List.filter_cons]

/-- Unfolding `analyze_sheet`'s fold: the id list collects the names of the
columns whose name passes the id-tag test, whatever their classification. -/
lemma analyze_foldl_id : ∀ (cols : List RawColumn) (acc : ColumnTypes),
    (cols.foldl analyze_step acc).id =
      acc.id ++ (cols.filter (fun c => id_tag c.name)).map (fun c => c.name) := by
  intro cols
  induction cols with
  | nil => intro acc; simp
  | cons c cs ih =>
    intro acc
    rw [List.foldl_cons, ih]
    rcases hcl : classify_content c.content <;> rcases hid : id_tag c.name <;>
      simp [analyze_step, hcl, hid, List.filter_cons]

/-- Every column belongs to exactly one of the three classification filters:
counting them partitions the column list. -/
lemma classify_partition_length : ∀ (cols : List RawColumn),
    (cols.filter (fun c => classify_content c.content == ColClass.num)).length +
      (cols.filter (fun c => classify_content c.content == ColClass.cat)).length +
      (cols.filter (fun c => classify_content c.content == ColClass.date)).length =
      cols.length := by
  intro cols
  induction cols with
  | nil => rfl
  | cons c cs ih =>
    rcases h : classify_content c.content <;> simp [List.filter_cons, h] <;> omega

/-- C4: the classifier places every column in exactly one of the three sets
numeric, categorical, date — the three name lists are exactly the images of
the three mutually exclusive, jointly exhaustive outcomes of
`classify_content`, so their sizes sum to the column count — and membership
in the `id` list depends only on the name test, independent of the class. -/
theorem c4_classification_partition :
    ∀ cols : List RawColumn,
      (analyze_sheet cols).numeric =
        (cols.filter (fun c => classify_content c.content == ColClass.num)).map (fun c => c.name) ∧
      (analyze_sheet cols).categorical =
        (cols.filter (fun c => classify_content c.content == ColClass.cat)).map (fun c => c.name) ∧
      (analyze_sheet cols).date =
        (cols.filter (fun c => classify_content c.content == ColClass.date)).map (fun c => c.name) ∧
      (analyze_sheet cols).numeric.length + (analyze_sheet cols).categorical.length +
        (analyze_sheet cols).date.length = cols.length ∧
      (analyze_sheet cols).id = (cols.filter (fun c => id_tag c.name)).map (fun c => c.name) := by
  intro cols
  have hn := analyze_foldl_numeric cols ⟨[], [], [], []⟩
  have hc := analyze_foldl_categorical cols ⟨[], [], [], []⟩
  have hd := analyze_foldl_date cols ⟨[], [], [], []⟩
  have hi := analyze_foldl_id cols ⟨[], [], [], []⟩
  simp only [analyze_sheet] at *
  refine ⟨by simpa using hn, by simpa using hc, by simpa using hd, ?_, by simpa using hi⟩
  rw [hn, hc, hd]
  simp [classify_partition_length cols]

/-- C6 counterexample: the claimed iff — tagged exactly when the lower-cased
name contains "id" but not "idea" — fails on the column name "id\nidea":
`re.match` anchors at the start and `.` does not cross the newline, so the
"idea" occurrence on the second line is invisible and the column IS tagged,
although its name does contain "idea". -/
theorem c6_counterexample :
    ¬ (∀ col : RawColumn,
        col.name ∈ (analyze_sheet [col]).id ↔
          (hasSub "id" (lowerStr col.name) = true ∧ hasSub "idea" (lowerStr col.name) = false)) := by
  intro hAll
  have h2 := (hAll ⟨"id\nidea", ColContent.textCol []⟩).mp (by decide)
  exact absurd h2.2 (by decide)

/-- C6 (amended): a column name lands in the id set of its sheet exactly when
the part of its lower-cased form before the first newline contains "id" and
does not contain "idea" (for newline-free names this is the claimed
containment test on the whole name; "EmployeeID" is tagged, "Idea" is not,
"Valid" is tagged). -/
theorem c6_id_tag_amended :
    ∀ (cols : List RawColumn) (nm : String),
      nm ∈ (analyze_sheet cols).id ↔
        ∃ col ∈ cols, col.name = nm ∧
          hasSubList "id".data ((lowerStr col.name).data.takeWhile (fun c => c != '\n')) = true ∧
          hasSubList "idea".data ((lowerStr col.name).data.takeWhile (fun c => c != '\n')) = false := by
  intro cols nm
  have hi := analyze_foldl_id cols ⟨[], [], [], []⟩
  simp only [analyze_sheet] at *
  rw [hi]
  simp only [List.nil_append, List.mem_map, List.mem_filter, id_tag, Bool.and_eq_true,
    Bool.not_eq_true']
  constructor
  · rintro ⟨col, ⟨hmem, hid, hidea⟩, hname⟩
    exact ⟨col, hmem, hname, hid, hidea⟩
  · rintro ⟨col, hmem, hname, hid, hidea⟩
    exact ⟨col, ⟨hmem, hid, hidea⟩, hname⟩

/-- Witness for C6 (amended) at a concrete sheet. -/
theorem c6_amended_witness :
    "EmployeeID" ∈ (analyze_sheet [⟨"EmployeeID", ColContent.numericCol⟩]).id :=
  (c6_id_tag_amended [⟨"EmployeeID", ColContent.numericCol⟩] "EmployeeID").mpr
    ⟨⟨"EmployeeID", ColContent.numericCol⟩, by simp, rfl, by decide, by decide⟩

/-- Left-outer totality: every left row appears in the join with some right
side. -/
lemma left_join_total {a b : Type} (ks : a → Int) (kt : b → Int)
    (ls : List a) (rs : List b) (x : a) (hx : x ∈ ls) :
    ∃ y, (x, y) ∈ left_join ks kt ls rs := by
  unfold left_join
  rcases hm : rs.filter (fun r => kt r == ks x) with _ | ⟨r0, ms⟩
  · exact ⟨none, List.mem_flatMap.mpr ⟨x, hx, by rw [hm]; simp⟩⟩
  · exact ⟨some r0, List.mem_flatMap.mpr ⟨x, hx, by rw [hm]; simp⟩⟩

/-- Left-outer null fill: a left row with no key match appears paired with
`none` (pandas null-filled right-side fields). -/
lemma left_join_nullfill {a b : Type} (ks : a → Int) (kt : b → Int)
    (ls : List a) (rs : List b) (x : a) (hx : x ∈ ls)
    (hm : rs.filter (fun r => kt r == ks x) = []) :
    (x, none) ∈ left_join ks kt ls rs := by
  unfold left_join
  exact List.mem_flatMap.mpr ⟨x, hx, by rw [hm]; simp⟩

/-- C5: each relationship view exists exactly when both of its named source
sheets exist; each is left-outer anchored at Employees, so every Employees
row appears at least once in the view, with a null-filled right side when no
Sales (resp. Feedback) row shares its EmployeeID. -/
theorem c5_relationship_views :
    (∀ db : Database,
      (db.employee_sales).isSome = (db.employees.isSome && db.sales.isSome) ∧
      (db.employee_feedback).isSome = (db.employees.isSome && db.feedback.isSome)) ∧
    (∀ (db : Database) (es : List EmployeeRow) (ss : List SalesRow)
        (view : List (EmployeeRow × Option SalesRow)),
      db.employees = some es → db.sales = some ss → db.employee_sales = some view →
      ∀ e ∈ es, (∃ y, (e, y) ∈ view) ∧
        (ss.filter (fun s => s.employeeID == e.employeeID) = [] → (e, none) ∈ view)) ∧
    (∀ (db : Database) (es : List EmployeeRow) (fs : List FeedbackRow)
        (view : List (EmployeeRow × Option FeedbackRow)),
      db.employees = some es → db.feedback = some fs → db.employee_feedback = some view →
      ∀ e ∈ es, (∃ y, (e, y) ∈ view) ∧
        (fs.filter (fun f => f.employeeID == e.employeeID) = [] → (e, none) ∈ view)) := by
  refine ⟨?_, ?_, ?_⟩
  · rintro ⟨e, s, f⟩
    cases e <;> cases s <;> cases f <;> exact ⟨rfl, rfl⟩
  · intro db es ss view h1 h2 h3 e he
    rw [Database.employee_sales, h1, h2] at h3
    injection h3 with h3
    subst h3
    exact ⟨left_join_total _ _ es ss e he,
      fun hm => left_join_nullfill _ _ es ss e he hm⟩
  · intro db es fs view h1 h2 h3 e he
    rw [Database.employee_feedback, h1, h2] at h3
    injection h3 with h3
    subst h3
    exact ⟨left_join_total _ _ es fs e he,
      fun hm => left_join_nullfill _ _ es fs e he hm⟩

/-- Witness for C5: one employee and an empty Sales sheet produce the
null-filled row. -/
theorem c5_witness :
    (∃ y, ((⟨1, "Alice", "Sales", 50000, ⟨2024, 1, 10⟩⟩ : EmployeeRow), y) ∈
      [((⟨1, "Alice", "Sales", 50000, ⟨2024, 1, 10⟩⟩ : EmployeeRow), (none : Option SalesRow))]) ∧
    (([] : List SalesRow).filter
        (fun s => s.employeeID == (⟨1, "Alice", "Sales", 50000, ⟨2024, 1, 10⟩⟩ : EmployeeRow).employeeID) = [] →
      ((⟨1, "Alice", "Sales", 50000, ⟨2024, 1, 10⟩⟩ : EmployeeRow), (none : Option SalesRow)) ∈
        [((⟨1, "Alice", "Sales", 50000, ⟨2024, 1, 10⟩⟩ : EmployeeRow), (none : Option SalesRow))]) :=
  c5_relationship_views.2.1
    ⟨some [⟨1, "Alice", "Sales", 50000, ⟨2024, 1, 10⟩⟩], some [], none⟩
    [⟨1, "Alice", "Sales", 50000, ⟨2024, 1, 10⟩⟩] []
    [((⟨1, "Alice", "Sales", 50000, ⟨2024, 1, 10⟩⟩ : EmployeeRow), (none : Option SalesRow))]
    rfl rfl rfl ⟨1, "Alice", "Sales", 50000, ⟨2024, 1, 10⟩⟩ (by simp)

/-- A prefix of `s` is still a prefix after appending to `s`. -/
lemma leadsWith_append_right (p : List Char) : ∀ (s t : List Char),
    leadsWith p s = true → leadsWith p (s ++ t) = true := by
  induction p with
  | nil => intro s t _; rfl
  | cons a as ih =>
    intro s t h
    cases s with
    | nil => exact absurd h (by simp [leadsWith])
    | cons b bs =>
      simp only [leadsWith, Bool.and_eq_true] at h
      simp only [List.cons_append, leadsWith, Bool.and_eq_true]
      exact ⟨h.1, ih bs t h.2⟩

/-- String form of `leadsWith_append_right`. -/
lemma leadsWith_str_append (p : List Char) (s t : String)
    (h : leadsWith p s.data = true) : leadsWith p (s ++ t).data = true := by
  rw [String.data_append]
  exact leadsWith_append_right p s.data t.data h

/-- A string starting with "Answer: " is nonempty. -/
lemma ne_empty_of_answer (s : String)
    (h : leadsWith "Answer: ".data s.data = true) : s ≠ "" := by
  intro he
  subst he
  exact absurd h (by decide)

/-- Package of the two round-trip facts about a formatted answer. -/
lemma anchor_combo (s : String) (h : leadsWith "Answer: ".data s.data = true) :
    s ≠ "" ∧ leadsWith "Answer: ".data s.data = true :=
  ⟨ne_empty_of_answer s h, h⟩

/-- C7 counterexample: "What is the salary of Zed?" matches the known
trigger "salary of", yet name extraction misses, the router returns the
`unhandled` record, and the formatter returns nothing — so the round-trip
does not yield an "Answer: " text for every trigger-matching question. -/
theorem c7_counterexample :
    cond_salary_of "What is the salary of Zed?" = true ∧
    query dbAlice "What is the salary of Zed?" =
      Except.ok (QueryResult.unhandled "What is the salary of Zed?") ∧
    format_analysis_result (QueryResult.unhandled "What is the salary of Zed?")
      "What is the salary of Zed?" = none :=
  ⟨by decide, by rfl, rfl⟩

/-- C7: formatting any known-tagged router result yields non-empty text that
starts with "Answer: "; a non-matching question produces the `unhandled`
record, the formatter returns nothing for it, and `get_answer` returns the
fallback's reply (logged as the assistant answer), i.e. the fallback path is
invoked. -/
theorem c7_format_round_trip :
    (∀ (r : QueryResult) (question : String), (∀ s, r ≠ QueryResult.unhandled s) →
      ∃ ans, format_analysis_result r question = some ans ∧ ans ≠ "" ∧
        leadsWith "Answer: ".data ans.data = true) ∧
    (∀ (st : LLMState) (q : String) (remote : Except String String),
      matches_any q = false →
      query st.analyzer q = Except.ok (QueryResult.unhandled q) ∧
      format_analysis_result (QueryResult.unhandled q) q = none ∧
      get_answer st q remote = Except.ok (ask_llm q remote,
        ⟨st.analyzer, st.history ++ [⟨"user", q⟩, ⟨"assistant", ask_llm q remote⟩]⟩)) := by
  constructor
  · intro r question h
    cases r <;> first
      | exact absurd rfl (h _)
      | (refine ⟨_, rfl, anchor_combo _ ?_⟩
         repeat' apply leadsWith_str_append
         decide)
  · intro st q remote h
    have hq := query_no_trigger st.analyzer q h
    refine ⟨hq, rfl, ?_⟩
    unfold get_answer
    rw [hq]
    simp [format_analysis_result, add_to_history]

/-- Witness for C7: a concrete known-tag result and a concrete non-matching
question. -/
theorem c7_witness :
    (∃ ans, format_analysis_result (QueryResult.total_payroll 5) "x" = some ans ∧ ans ≠ "" ∧
      leadsWith "Answer: ".data ans.data = true) ∧
    (query dbEmpty "What is the weather today?" =
        Except.ok (QueryResult.unhandled "What is the weather today?") ∧
      format_analysis_result (QueryResult.unhandled "What is the weather today?")
        "What is the weather today?" = none ∧
      get_answer ⟨dbEmpty, []⟩ "What is the weather today?" (Except.ok "hi") =
        Except.ok ("hi", ⟨dbEmpty,
          [⟨"user", "What is the weather today?"⟩, ⟨"assistant", "hi"⟩]⟩)) :=
  ⟨c7_format_round_trip.1 (QueryResult.total_payroll 5) "x" (fun s h => by cases h),
   c7_format_round_trip.2 ⟨dbEmpty, []⟩ "What is the weather today?" (Except.ok "hi") (by rfl)⟩

/-- Membership in the deduplicated list implies membership in the source
list. -/
lemma mem_of_mem_uniqFirstGo {x : String} : ∀ (seen l : List String),
    x ∈ uniqFirstGo seen l → x ∈ l := by
  intro seen l
  induction l generalizing seen with
  | nil => intro h; exact absurd h (by simp [uniqFirstGo])
  | cons a l ih =>
    intro h
    unfold uniqFirstGo at h
    by_cases ha : a ∈ seen
    · rw [if_pos ha] at h
      exact List.mem_cons_of_mem a (ih _ h)
    · rw [if_neg ha] at h
      rcases List.mem_cons.mp h with h | h
      · exact h ▸ List.mem_cons_self a l
      · exact List.mem_cons_of_mem a (ih _ h)

/-- If no distinct Department value occurs in the question, department
extraction returns nothing. -/
lemma extract_department_none (es : List EmployeeRow) (q : String)
    (h : ∀ d ∈ es.map (fun e => e.department), hasSub (lowerStr d) (lowerStr q) = false) :
    extract_department es q = none := by
  unfold extract_department
  rw [List.find?_eq_none]
  intro d hd
  have := h d (mem_of_mem_uniqFirstGo _ _ hd)
  simp [this]

/-- If no distinct Name value occurs in the question, name extraction returns
nothing. -/
lemma extract_name_none (es : List EmployeeRow) (q : String)
    (h : ∀ n ∈ es.map (fun e => e.name), hasSub (lowerStr n) (lowerStr q) = false) :
    extract_name es q = none := by
  unfold extract_name
  rw [List.find?_eq_none]
  intro n hn
  have := h n (mem_of_mem_uniqFirstGo _ _ hn)
  simp [this]

/-- C10: when an entity-extracting trigger fires but no distinct Department
(resp. Name) value of the Employees sheet occurs as a lower-cased substring
of the question, the extraction helper returns nothing and `query` falls
through to the `unhandled` record instead of raising. -/
theorem c10_extraction_miss_falls_through :
    ∀ (db : Database) (es : List EmployeeRow) (q : String),
      db.employees = some es →
      ((cond_dept_count q = true →
        (∀ d ∈ es.map (fun e => e.department), hasSub (lowerStr d) (lowerStr q) = false) →
        query db q = Except.ok (QueryResult.unhandled q)) ∧
      (cond_dept_count q = false → cond_salary_of q = true →
        (∀ n ∈ es.map (fun e => e.name), hasSub (lowerStr n) (lowerStr q) = false) →
        query db q = Except.ok (QueryResult.unhandled q))) := by
  intro db es q hemp
  constructor
  · intro hc hd
    rw [query_branch_1 db q hc]
    simp only [run_dept_count, hemp, extract_department_none es q hd]
  · intro hc1 hc2 hn
    rw [query_branch_2 db q hc1 hc2]
    simp only [run_salary_of, hemp, extract_name_none es q hn]

/-- Witness for C10 at a concrete table and questions. -/
theorem c10_witness :
    query ⟨some [⟨1, "Alice", "Sales", 50000, ⟨2024, 1, 10⟩⟩], none, none⟩
        "how many employees are in the marketing department?" =
      Except.ok (QueryResult.unhandled "how many employees are in the marketing department?") :=
  (c10_extraction_miss_falls_through
    ⟨some [⟨1, "Alice", "Sales", 50000, ⟨2024, 1, 10⟩⟩], none, none⟩
    [⟨1, "Alice", "Sales", 50000, ⟨2024, 1, 10⟩⟩]
    "how many employees are in the marketing department?" rfl).1 (by decide) (by decide)

end DataAnalyst
